import Mathlib

/-!
Verification development for the InnerVoice repository.

Shallow embedding of the two sides of the system:
* `src/whisper/whisper_server.py` — the Flask transcription service
  (VRAM admission control, lazy model load, idle unload, `/health`);
* `src/bot/bot.py` — the Telegram bot pipeline (the Whisper HTTP client
  with its retry loop, the per-segment worker loop of
  `process_audio_async` with its file cleanup, the duplicate guard of
  `handle_voice`, the pending-retry map and `retry_callback`, and the
  text-chunking helpers used for delivery).

Python dictionaries are modelled as association lists, the filesystem as a
list of existing paths, wall/monotonic clock readings as integers passed in
explicitly, and the network as oracles supplying one response per request.
-/

set_option maxHeartbeats 1000000
set_option maxRecDepth 4000

namespace InnerVoice

/-! ### Association-list dictionaries (Python `dict` semantics) -/

/-- Look up a key in an association list (Python `d[k]` / `k in d`). -/
def dlookup {κ α : Type} [DecidableEq κ] (k : κ) : List (κ × α) → Option α
  | [] => none
  | (k', v) :: rest => if k' = k then some v else dlookup k rest

/-- Python `d[k] = v`: afterwards exactly one entry for `k`, holding `v`. -/
def dictSet {κ α : Type} [DecidableEq κ] (k : κ) (v : α) (m : List (κ × α)) :
    List (κ × α) :=
  m.filter (fun e => ¬ (e.1 = k)) ++ [(k, v)]

/-- Python `del d[k]`. -/
def dictDel {κ α : Type} [DecidableEq κ] (k : κ) (m : List (κ × α)) : List (κ × α) :=
  m.filter (fun e => ¬ (e.1 = k))

/-- Number of entries stored under key `k`. -/
def countKey {κ α : Type} [DecidableEq κ] (k : κ) (m : List (κ × α)) : Nat :=
  (m.filter (fun e => e.1 = k)).length

theorem dictSet_cons_eq {κ α : Type} [DecidableEq κ] (k : κ) (v : α)
    (e : κ × α) (m : List (κ × α)) (h : e.1 = k) :
    dictSet k v (e :: m) = dictSet k v m := by
  simp [dictSet, h]

theorem dictSet_cons_ne {κ α : Type} [DecidableEq κ] (k : κ) (v : α)
    (e : κ × α) (m : List (κ × α)) (h : ¬ e.1 = k) :
    dictSet k v (e :: m) = e :: dictSet k v m := by
  simp [dictSet, h]

theorem dlookup_dictSet {κ α : Type} [DecidableEq κ] (k : κ) (v : α)
    (m : List (κ × α)) : dlookup k (dictSet k v m) = some v := by
  induction m with
  | nil => simp [dictSet, dlookup]
  | cons e rest ih =>
    by_cases h : e.1 = k
    · rw [dictSet_cons_eq k v e rest h]; exact ih
    · rw [dictSet_cons_ne k v e rest h, dlookup, if_neg h]; exact ih

theorem countKey_dictSet {κ α : Type} [DecidableEq κ] (k : κ) (v : α)
    (m : List (κ × α)) : countKey k (dictSet k v m) = 1 := by
  induction m with
  | nil => simp [dictSet, countKey]
  | cons e rest ih =>
    by_cases h : e.1 = k
    · rw [dictSet_cons_eq k v e rest h]; exact ih
    · rw [dictSet_cons_ne k v e rest h]
      simpa [countKey, h] using ih

theorem dlookup_dictDel {κ α : Type} [DecidableEq κ] (k : κ)
    (m : List (κ × α)) : dlookup k (dictDel k m) = none := by
  induction m with
  | nil => simp [dictDel, dlookup]
  | cons e rest ih =>
    by_cases h : e.1 = k
    · simpa [dictDel, h] using ih
    · simp only [dictDel, List.filter_cons] at ih ⊢
      simp only [h, decide_not]
      simpa [dlookup, h] using ih

/-! ### Whisper server: VRAM admission, model lifecycle, endpoints
(`src/whisper/whisper_server.py`) -/

/-- `VRAM_THRESHOLD_FREE_MB` default (whisper_server.py line 16). -/
def VRAM_THRESHOLD_FREE_MB : Int := 2048

/-- `IDLE_UNLOAD_SECONDS` default (whisper_server.py line 24): 15 * 60. -/
def IDLE_UNLOAD_SECONDS : Int := 900

/-- `check_vram_available` (whisper_server.py lines 122-128).
`get_vram_stats` is modelled by its result: `none` when both probes fail
(the `(None, None)` return), otherwise `some (used_mb, total_mb)`. -/
def check_vram_available (threshold : Int) (stats : Option (Int × Int)) : Bool :=
  match stats with
  | none => true
  | some (used_mb, total_mb) => total_mb - used_mb ≥ threshold

/-- Server-side model state: `_model`/`_model_load_error`/`_last_used_monotonic`
(whisper_server.py lines 28-31). `loaded` is `_model is not None`,
`loadError` is `_model_load_error is not None`. -/
structure ModelState where
  loaded : Bool
  loadError : Bool
  lastUsed : Option Int
  deriving Repr, DecidableEq

/-- `get_model` (whisper_server.py lines 47-85). Returns the updated state and
whether a model handle was obtained. `gpuAvailable` is the `_probe_gpu`
result; a failed load caches the error so later calls fail fast. -/
def get_model (gpuAvailable : Bool) (now : Int) (st : ModelState) :
    ModelState × Bool :=
  if st.loaded then ({ st with lastUsed := some now }, true)
  else if st.loadError then (st, false)
  else if gpuAvailable then
    ({ loaded := true, loadError := false, lastUsed := some now }, true)
  else ({ st with loadError := true }, false)

/-- Responses of the `/transcribe` endpoint. -/
inductive TranscribeResp
  | noAudio                -- 400 {"error": "No audio file"}
  | gpuBusy                -- 503 {"error": "gpu_busy", ...}
  | serverError            -- 500 {"error": str(e)} (load failure or transcription error)
  | ok (text : String)     -- 200 {"text": ...}
  deriving Repr, DecidableEq

/-- `transcribe` (whisper_server.py lines 142-194). `hasAudio` models
`"audio" in request.files`; `stats` the `get_vram_stats` probe; `inferResult`
the outcome of `get_model().transcribe(...)` (`none` = it raised). The third
component records whether any model-load / inference work was attempted,
i.e. whether control reached the `get_model().transcribe` call. -/
def transcribe (threshold : Int) (stats : Option (Int × Int))
    (gpuAvailable : Bool) (now : Int) (hasAudio : Bool)
    (inferResult : Option String) (st : ModelState) :
    TranscribeResp × ModelState × Bool :=
  if ¬ hasAudio then (.noAudio, st, false)
  else if ¬ check_vram_available threshold stats then (.gpuBusy, st, false)
  else
    match get_model gpuAvailable now st with
    | (st', false) => (.serverError, st', true)
    | (st', true) =>
      match inferResult with
      | none => (.serverError, st', true)
      | some t => (.ok t.trim, st', true)

/-- `/health` response (whisper_server.py lines 197-207): the VRAM fields are
present only when `_model is not None` and `get_vram_stats` returned numbers. -/
structure HealthResp where
  status : String
  model : String
  vram : Option (Int × Int × Int)   -- vram_used_mb, vram_total_mb, vram_free_mb
  deriving Repr, DecidableEq

/-- `health` (whisper_server.py lines 197-207). -/
def health (modelSize : String) (stats : Option (Int × Int)) (st : ModelState) :
    HealthResp :=
  { status := "healthy"
    model := modelSize
    vram :=
      if st.loaded then
        match stats with
        | some (u, t) => some (u, t, t - u)
        | none => none
      else none }

/-- One iteration of the idle-unload watcher body
(`_unload_model_if_idle`, whisper_server.py lines 229-263), for a loaded or
unloaded model. `now` is the `time.monotonic()` of the outer idle check and
`now2` the one re-read inside `_model_lock` for the re-verification. -/
def unload_model_if_idle (idleSecs : Int) (now now2 : Int) (st : ModelState) :
    ModelState :=
  if ¬ st.loaded then st
  else
    match st.lastUsed with
    | none => { st with lastUsed := some now }
    | some last =>
      if now - last < idleSecs then st
      else if now2 - last < idleSecs then st   -- re-check under the model lock
      else { st with loaded := false, lastUsed := none }

/-! ### Whisper HTTP client: `_call_whisper_api` (`src/bot/bot.py` lines 699-753) -/

/-- `WHISPER_RETRIES` (bot.py line 30). -/
def WHISPER_RETRIES : Nat := 2

/-- A parsed JSON response body as used by `_call_whisper_api`. -/
structure RespBody where
  error : Option String
  message : Option String
  text : String
  deriving Repr, DecidableEq

/-- One attempt's transport outcome: a connection-level failure
(`aiohttp.ClientError` / `asyncio.TimeoutError` / `ConnectionError` while
sending), or an HTTP response whose body either parsed as JSON (`some`) or
did not (`none`, the `aiohttp.ContentTypeError` case). -/
inductive WAttempt
  | connError
  | resp (status : Nat) (body : Option RespBody)
  deriving Repr, DecidableEq

/-- What error a retryable attempt would raise if it were the last one. -/
inductive RetryKind
  | conn                 -- the transport exception is re-raised
  | http (status : Nat)  -- `resp.raise_for_status()` raises ClientResponseError
  deriving Repr, DecidableEq

/-- Classification of one attempt by the body of the retry loop. -/
inductive AttemptClass
  | busyNow (msg : String)   -- raises WhisperBusyError immediately
  | success (text : String)  -- returns the parsed result
  | retryable (k : RetryKind)
  deriving Repr, DecidableEq

/-- Whether `pat` occurs at the start of `s` (Python `s.startswith(pat)`). -/
def starts_with : List Char → List Char → Bool
  | [], _ => true
  | _ :: _, [] => false
  | p :: ps, c :: cs => p = c && starts_with ps cs

/-- Whether `pat` occurs somewhere inside `s` (Python `pat in s`). -/
def has_substring (pat : List Char) : List Char → Bool
  | [] => starts_with pat []
  | c :: cs => starts_with pat (c :: cs) || has_substring pat cs

/-- Python `str.lower()` on a character sequence. -/
def py_lower (s : List Char) : List Char := s.map Char.toLower

/-- The OOM test of bot.py lines 729-730:
`"out of memory" in err_msg or "outofmemoryerror" in err_msg` on the
lowercased error string. -/
def oom_text (e : String) : Bool :=
  has_substring ("out of memory".toList) (py_lower e.toList) ||
    has_substring ("outofmemoryerror".toList) (py_lower e.toList)

/-- Classification of an HTTP response by bot.py lines 716-743: any 503
raises `WhisperBusyError` (with the specific message when the body says
`gpu_busy`/`gpu_oom`); a 5xx whose error body mentions OOM also raises
`WhisperBusyError`; other 5xx and (via `raise_for_status`) 4xx raise
`aiohttp.ClientError`s, which the retry handler catches; 2xx succeeds.
A 2xx whose body is not JSON raises `aiohttp.ContentTypeError`, itself a
`ClientError`, hence retryable. -/
def classify_response (status : Nat) (body : Option RespBody) : AttemptClass :=
  if status = 503 then
    match body with
    | some b =>
      if b.error = some "gpu_busy" ∨ b.error = some "gpu_oom" then
        .busyNow ((b.message).getD "GPU busy")
      else .busyNow "Service unavailable"
    | none => .busyNow "Service unavailable"
  else if 500 ≤ status then
    match body with
    | some b =>
      if oom_text ((b.error).getD "") then
        .busyNow ((b.message).getD "GPU ran out of memory. Try again in a moment.")
      else .retryable (.http status)
    | none => .retryable (.http status)
  else if 400 ≤ status then .retryable (.http status)
  else
    match body with
    | some b => .success b.text.trim
    | none => .retryable (.http status)

/-- Classification of one attempt. -/
def classify_attempt : WAttempt → AttemptClass
  | .connError => .retryable .conn
  | .resp s b => classify_response s b

/-- Final outcome of `_call_whisper_api`. -/
inductive CallOutcome
  | busy (msg : String)       -- WhisperBusyError
  | ok (text : String)
  | connFail                  -- the transport exception propagates
  | httpFail (status : Nat)   -- ClientResponseError propagates
  deriving Repr, DecidableEq

/-- The retry loop `for attempt in range(WHISPER_RETRIES + 1)` of
`_call_whisper_api` (bot.py lines 712-753), with `left` attempts still
allowed after the current one; the current attempt index is
`retries - left`, so the loop starts at `left = retries`. `oracle j` is the
transport outcome the request of attempt `j` would observe. Returns the
outcome, the number of requests made, and the list of backoff sleeps
(`asyncio.sleep(3 * (attempt + 1))`, bot.py lines 738 and 748) taken
between attempts. -/
def call_whisper_from (retries : Nat) (oracle : Nat → WAttempt) :
    Nat → CallOutcome × Nat × List Nat
  | 0 =>
    -- last attempt (attempt == WHISPER_RETRIES): a retryable error is raised
    match classify_attempt (oracle retries) with
    | .busyNow m => (.busy m, 1, [])
    | .success t => (.ok t, 1, [])
    | .retryable .conn => (.connFail, 1, [])
    | .retryable (.http s) => (.httpFail s, 1, [])
  | left + 1 =>
    match classify_attempt (oracle (retries - (left + 1))) with
    | .busyNow m => (.busy m, 1, [])
    | .success t => (.ok t, 1, [])
    | .retryable _ =>
      let r := call_whisper_from retries oracle left
      (r.1, r.2.1 + 1, 3 * (retries - (left + 1) + 1) :: r.2.2)

/-- `_call_whisper_api` (bot.py lines 699-753) over an oracle of per-attempt
transport outcomes. -/
def call_whisper_api (oracle : Nat → WAttempt) : CallOutcome × Nat × List Nat :=
  call_whisper_from WHISPER_RETRIES oracle WHISPER_RETRIES

/-! ### Bot worker: `process_audio_async` segment loop, cleanup, pending retry
(`src/bot/bot.py` lines 763-980) -/

/-- `DUPLICATE_COOLDOWN_SEC` (bot.py line 31). -/
def DUPLICATE_COOLDOWN_SEC : Int := 60

/-- `LAST_PROCESSED_MAX_AGE` (bot.py line 32). -/
def LAST_PROCESSED_MAX_AGE : Int := 600

/-- A user's processing mode preference (`prefs["mode"]`). -/
inductive Mode
  | fast
  | full
  deriving Repr, DecidableEq

/-- Result of one `process_audio_chunk` / `_call_whisper_api` invocation as
seen by the segment loop: success, `WhisperBusyError`, or any other
exception. -/
inductive InferRes
  | ok
  | busyError
  | failError
  deriving Repr, DecidableEq

/-- How one iteration of the segment loop (bot.py lines 819-858) ends. -/
inductive IterOut
  | completed    -- all calls for this segment succeeded
  | skippedErr   -- a non-busy exception was logged, loop continues
  | busyAbort    -- WhisperBusyError: `break`
  deriving Repr, DecidableEq

/-- The inference calls made for one segment and the iteration's outcome
(bot.py lines 833-855). `inf j` is the result of the `j`-th call for this
segment: fast mode makes one call (translate); full mode calls transcribe
(call 0) and, only if it succeeded, translate (call 1). A busy or failed
call ends the iteration at that call. -/
def iter_result (mode : Mode) (inf : Nat → InferRes) : List Nat × IterOut :=
  match mode with
  | .fast =>
    match inf 0 with
    | .ok => ([0], .completed)
    | .busyError => ([0], .busyAbort)
    | .failError => ([0], .skippedErr)
  | .full =>
    match inf 0 with
    | .busyError => ([0], .busyAbort)
    | .failError => ([0], .skippedErr)
    | .ok =>
      match inf 1 with
      | .ok => ([0, 1], .completed)
      | .busyError => ([0, 1], .busyAbort)
      | .failError => ([0, 1], .skippedErr)

/-- The segment loop of bot.py lines 819-858 over segments `segs`, starting
at index `i`. Returns the inference calls made (as `(segment, call)` index
pairs), whether `gpu_busy_raised` was set (the `break` on
`WhisperBusyError`), and the unlink requests issued by each iteration's
`finally` (`Path(segment).unlink(missing_ok=True)` when `segment != wav`). -/
def run_loop (mode : Mode) (infer : Nat → Nat → InferRes) (wav : String) :
    Nat → List String → List (Nat × Nat) × Bool × List String
  | _, [] => ([], false, [])
  | i, s :: rest =>
    let r := iter_result mode (infer i)
    let myCalls := r.1.map (fun j => (i, j))
    let myUnlink : List String := if s = wav then [] else [s]
    if r.2 = .busyAbort then (myCalls, true, myUnlink)
    else
      let q := run_loop mode infer wav (i + 1) rest
      (myCalls ++ q.1, q.2.1, myUnlink ++ q.2.2)

/-- Apply a sequence of `unlink(missing_ok=True)` requests to a filesystem
(the list of currently existing paths). Returns the remaining filesystem
and the log of paths that were actually deleted, in order. -/
def applyUnlinks : List String → List String → List String × List String
  | fs, [] => (fs, [])
  | fs, p :: ps =>
    if p ∈ fs then
      let r := applyUnlinks (fs.erase p) ps
      (r.1, p :: r.2)
    else applyUnlinks fs ps

/-- Bot-side global state: `pending_retry`, `last_processed`, the
`audio_queue` contents, and the working-directory filesystem. -/
structure BotState where
  pending : List (Nat × (String × String))       -- user_id -> (file_id, file_path)
  lastProc : List ((Nat × String) × Int)         -- (user_id, file_id) -> timestamp
  queue : List (Nat × String × String)           -- queued (user_id, file_id, file_path)
  fs : List String
  deriving Repr, DecidableEq

/-- Terminal outcomes of `process_audio_async` for a dequeued job. -/
inductive PAOutcome
  | completed   -- ran to the end of the try block (transcript delivered)
  | busyRetry   -- gpu_busy_raised: pending_retry set, busy notice sent
  | failed      -- early return / exception: generic failure notice
  deriving Repr, DecidableEq

/-- Result of one `process_audio_async` run. -/
structure PAOut where
  st : BotState
  outcome : PAOutcome
  removed : List String          -- files actually deleted, in deletion order
  calls : List (Nat × Nat)       -- inference calls made, as (segment, call) pairs
  deriving Repr, DecidableEq

/-- `process_audio_async` (bot.py lines 763-962). `convOk` is whether the
steps before the loop succeeded (source present, ffmpeg conversion, and —
when splitting — `split_audio`); `segs` is the segment list the loop runs
over (`[wav]` for a small file, otherwise the `split_audio` outputs). The
`finally` block (lines 955-962) unlinks `file_path` with `missing_ok` and
`wav_path` when it exists; on `gpu_busy_raised` (lines 860-868) a
`pending_retry` entry is written and the function returns before reaching
`last_processed[(user_id, file_id)] = time.time()` (line 871), which only
the completed path executes. -/
def process_audio_async (now : Int) (user : Nat) (fileId filePath wavPath : String)
    (segs : List String) (mode : Mode) (infer : Nat → Nat → InferRes)
    (convOk : Bool) (st : BotState) : PAOut :=
  if ¬ convOk ∨ segs = [] then
    let r := applyUnlinks st.fs [filePath, wavPath]
    ⟨{ st with fs := r.1 }, .failed, r.2, []⟩
  else
    let l := run_loop mode infer wavPath 0 segs
    let r := applyUnlinks st.fs (l.2.2 ++ [filePath, wavPath])
    if l.2.1 then
      ⟨{ st with pending := dictSet user (fileId, filePath) st.pending, fs := r.1 },
        .busyRetry, r.2, l.1⟩
    else
      ⟨{ st with lastProc := dictSet (user, fileId) now st.lastProc, fs := r.1 },
        .completed, r.2, l.1⟩

/-! ### `retry_callback` (`src/bot/bot.py` lines 499-514) -/

/-- The user-visible reaction of `retry_callback`. -/
inductive RetryResp
  | nothingPending   -- "No hay audio pendiente de reintento."
  | fileGone         -- "Archivo de audio ya no disponible."
  | retrying         -- the job was re-queued and "Reintentando..." shown
  deriving Repr, DecidableEq

/-- `retry_callback` (bot.py lines 499-514): if no entry, report nothing
pending; if the stored path no longer exists, drop the entry and report the
file gone; otherwise re-enqueue `(user_id, file_id, file_path)` and drop
the entry. -/
def retry_callback (user : Nat) (st : BotState) : BotState × RetryResp :=
  match dlookup user st.pending with
  | none => (st, .nothingPending)
  | some (fid, path) =>
    if path ∈ st.fs then
      ({ st with pending := dictDel user st.pending,
                 queue := st.queue ++ [(user, fid, path)] }, .retrying)
    else
      ({ st with pending := dictDel user st.pending }, .fileGone)

/-! ### Duplicate guard: `handle_voice` and `_evict_old_last_processed`
(`src/bot/bot.py` lines 209-214 and 520-541) -/

/-- `_evict_old_last_processed` (bot.py lines 209-214): drop entries with
`now - ts > LAST_PROCESSED_MAX_AGE`. -/
def evict_old_last_processed (now : Int) (lp : List ((Nat × String) × Int)) :
    List ((Nat × String) × Int) :=
  lp.filter (fun e => ¬ (now - e.2 > LAST_PROCESSED_MAX_AGE))

/-- State observed by the duplicate-suppression scenario: the guard map,
the jobs admitted to the queue (in order), and the duplicate-skipped
notices sent. -/
structure DupState where
  lastProc : List ((Nat × String) × Int)
  enq : List (Nat × String)
  skips : List (Nat × String)
  deriving Repr, DecidableEq

/-- The admission path of `handle_voice` (bot.py lines 520-541): evict old
guard entries, then skip with a notice when the same `(user_id, file_id)`
was last processed less than `DUPLICATE_COOLDOWN_SEC` ago, otherwise
enqueue the job. -/
def handle_voice (now : Int) (user : Nat) (fid : String) (st : DupState) :
    DupState :=
  let lp := evict_old_last_processed now st.lastProc
  match dlookup (user, fid) lp with
  | some ts =>
    if now - ts < DUPLICATE_COOLDOWN_SEC then
      { st with lastProc := lp, skips := st.skips ++ [(user, fid)] }
    else { st with lastProc := lp, enq := st.enq ++ [(user, fid)] }
  | none => { st with lastProc := lp, enq := st.enq ++ [(user, fid)] }

/-- Events of the duplicate-suppression scenario: a voice submission
(`handle_voice`) or the worker finishing a job, which records
`last_processed[(user_id, file_id)] = time.time()` (bot.py line 871). -/
inductive DupEv
  | submit (now : Int) (user : Nat) (fid : String)
  | complete (now : Int) (user : Nat) (fid : String)
  deriving Repr, DecidableEq

/-- One event step of the duplicate-suppression scenario. -/
def dup_step (st : DupState) : DupEv → DupState
  | .submit now u f => handle_voice now u f st
  | .complete now u f => { st with lastProc := dictSet (u, f) now st.lastProc }

/-- Run a sequence of submission/completion events from the empty state. -/
def run_dup (evs : List DupEv) : DupState :=
  evs.foldl dup_step ⟨[], [], []⟩

/-! ### Delivery chunking: `_escape_html`, `_split_text_chunks`,
`_chunk_then_escape` (`src/bot/bot.py` lines 580-630)

Python strings are modelled as `List Char`. -/

/-- Python whitespace, as stripped by `str.strip()` / `str.rstrip()`. -/
def isPySpace (c : Char) : Bool :=
  c = ' ' || c = '\t' || c = '\n' || c = '\r' || c = Char.ofNat 11 || c = Char.ofNat 12

/-- Python `str.rstrip()`. -/
def pyRstrip (s : List Char) : List Char :=
  (s.reverse.dropWhile isPySpace).reverse

/-- Python `str.strip()`. -/
def pyStrip (s : List Char) : List Char :=
  pyRstrip (s.dropWhile isPySpace)

/-- Python `str.replace(pat, rep)` for a single-character pattern. -/
def replaceChar (pat : Char) (rep : List Char) : List Char → List Char
  | [] => []
  | c :: cs => (if c = pat then rep else [c]) ++ replaceChar pat rep cs

/-- `_escape_html` (bot.py lines 580-582):
`text.replace("&", "&amp;").replace("<", "&lt;").replace(">", "&gt;")`,
the replaces applied in that order. -/
def escape_html (s : List Char) : List Char :=
  replaceChar '>' ("&gt;".toList)
    (replaceChar '<' ("&lt;".toList)
      (replaceChar '&' ("&amp;".toList) s))

/-- The character-splitting `while` loop of bot.py lines 605-609:
slices `line[start:start+maxLength]` until the line is exhausted. All call
sites pass `maxLength ≥ 1` (the Python loop would not terminate at 0;
that argument never occurs). -/
def char_slices : Nat → List Char → List (List Char)
  | _, [] => []
  | 0, s => [s]
  | n + 1, c :: cs =>
    ((c :: cs).take (n + 1)) :: char_slices (n + 1) ((c :: cs).drop (n + 1))
termination_by _ s => s.length
decreasing_by
  simp [List.length_drop]
  omega

/-- The `for line in text.split("\n")` loop of `_split_text_chunks`
(bot.py lines 591-612), carrying the `current` buffer and the `chunks`
accumulator, including the final `if current: chunks.append(current.rstrip())`. -/
def split_loop (maxLength : Nat) :
    List (List Char) → List Char → List (List Char) → List (List Char)
  | [], current, chunks =>
    if current ≠ [] then chunks ++ [pyRstrip current] else chunks
  | line :: rest, current, chunks =>
    let lineAvec := line ++ ['\n']
    if current.length + lineAvec.length ≤ maxLength then
      split_loop maxLength rest (current ++ lineAvec) chunks
    else
      let chunks1 := if current ≠ [] then chunks ++ [pyRstrip current] else chunks
      if line.length ≤ maxLength then
        split_loop maxLength rest lineAvec chunks1
      else
        split_loop maxLength rest [] (chunks1 ++ char_slices maxLength line)

/-- `_split_text_chunks` (bot.py lines 585-612). -/
def split_text_chunks (text : List Char) (maxLength : Nat) : List (List Char) :=
  if text = [] ∨ pyStrip text = [] then []
  else if text.length ≤ maxLength then [pyStrip text]
  else split_loop maxLength (text.splitOn '\n') [] []

mutual

/-- `_chunk_then_escape` (bot.py lines 615-630), with explicit recursion
fuel standing for Python's call stack: `none` means the computation did not
finish within `fuel` nested calls (Python raises `RecursionError` once its
recursion limit is hit). `raw_max = max(800, max_escaped - 100)` as in
line 620 (for `maxEscaped < 100` Python's negative value also loses to 800). -/
def chunk_then_escape : Nat → List Char → Nat → Option (List (List Char))
  | 0, _, _ => none
  | fuel + 1, text, maxEscaped =>
    if text = [] ∨ pyStrip text = [] then some []
    else
      chunk_then_escape_go fuel
        (split_text_chunks text (max 800 (maxEscaped - 100))) maxEscaped
termination_by fuel _ _ => (fuel, 0)

/-- The `for raw in raw_chunks` loop of `_chunk_then_escape`
(bot.py lines 622-629): escaped chunks that fit are kept, oversized ones
are re-split by a recursive `_chunk_then_escape` call. -/
def chunk_then_escape_go : Nat → List (List Char) → Nat → Option (List (List Char))
  | _, [], _ => some []
  | fuel, raw :: rest, maxEscaped =>
    let esc := escape_html raw
    if esc.length ≤ maxEscaped then
      match chunk_then_escape_go fuel rest maxEscaped with
      | none => none
      | some tl => some (esc :: tl)
    else
      match chunk_then_escape fuel raw maxEscaped with
      | none => none
      | some a =>
        match chunk_then_escape_go fuel rest maxEscaped with
        | none => none
        | some b => some (a ++ b)
termination_by fuel l _ => (fuel, l.length + 1)

end

/-! ## Client retry loop lemmas -/

theorem call_from_count_pos (retries : Nat) (oracle : Nat → WAttempt) :
    ∀ left, 1 ≤ (call_whisper_from retries oracle left).2.1 := by
  intro left
  cases left with
  | zero =>
    rcases h : classify_attempt (oracle retries) with m | t | k
    · simp [call_whisper_from, h]
    · simp [call_whisper_from, h]
    · rcases k with _ | s <;> simp [call_whisper_from, h]
  | succ l =>
    rcases h : classify_attempt (oracle (retries - (l + 1))) with m | t | k
    · simp [call_whisper_from, h]
    · simp [call_whisper_from, h]
    · simp [call_whisper_from, h]

theorem call_from_count_le (retries : Nat) (oracle : Nat → WAttempt) :
    ∀ left, (call_whisper_from retries oracle left).2.1 ≤ left + 1 := by
  intro left
  induction left with
  | zero =>
    rcases h : classify_attempt (oracle retries) with m | t | k
    · simp [call_whisper_from, h]
    · simp [call_whisper_from, h]
    · rcases k with _ | s <;> simp [call_whisper_from, h]
  | succ l ih =>
    rcases h : classify_attempt (oracle (retries - (l + 1))) with m | t | k
    · simp [call_whisper_from, h]
    · simp [call_whisper_from, h]
    · simp only [call_whisper_from, h]
      omega

theorem call_from_busy (retries : Nat) (oracle : Nat → WAttempt)
    (left : Nat) (m : String)
    (h : classify_attempt (oracle (retries - left)) = .busyNow m) :
    call_whisper_from retries oracle left = (.busy m, 1, []) := by
  cases left with
  | zero =>
    rw [Nat.sub_zero] at h
    simp [call_whisper_from, h]
  | succ l => simp [call_whisper_from, h]

theorem call_from_retried_only_retryable (retries : Nat)
    (oracle : Nat → WAttempt) (left : Nat)
    (h : 1 < (call_whisper_from retries oracle left).2.1) :
    ∃ k, classify_attempt (oracle (retries - left)) = .retryable k := by
  cases left with
  | zero =>
    rcases hc : classify_attempt (oracle retries) with m | t | k
    · exfalso
      simp [call_whisper_from, hc] at h
    · exfalso
      simp [call_whisper_from, hc] at h
    · exact ⟨k, hc⟩
  | succ l =>
    rcases hc : classify_attempt (oracle (retries - (l + 1))) with m | t | k
    · exfalso
      simp [call_whisper_from, hc] at h
    · exfalso
      simp [call_whisper_from, hc] at h
    · exact ⟨k, rfl⟩

theorem call_from_sleeps (retries : Nat) (oracle : Nat → WAttempt) :
    ∀ left, left ≤ retries →
      (call_whisper_from retries oracle left).2.2 =
        (List.range ((call_whisper_from retries oracle left).2.1 - 1)).map
          (fun j => 3 * (retries - left + j + 1)) := by
  intro left
  induction left with
  | zero =>
    intro _
    rcases h : classify_attempt (oracle retries) with m | t | k
    · simp [call_whisper_from, h]
    · simp [call_whisper_from, h]
    · rcases k with _ | s <;> simp [call_whisper_from, h]
  | succ l ih =>
    intro hle
    rcases h : classify_attempt (oracle (retries - (l + 1))) with m | t | k
    · simp [call_whisper_from, h]
    · simp [call_whisper_from, h]
    · have ih' := ih (by omega)
      have hpos := call_from_count_pos retries oracle l
      obtain ⟨m', hm'⟩ : ∃ m',
          (call_whisper_from retries oracle l).2.1 = m' + 1 :=
        ⟨(call_whisper_from retries oracle l).2.1 - 1, by omega⟩
      simp only [call_whisper_from, h]
      rw [ih', hm', Nat.add_sub_cancel, Nat.add_sub_cancel,
        List.range_succ_eq_map]
      simp only [List.map_cons, List.map_map, List.cons.injEq]
      constructor
      · trivial
      · apply List.map_congr_left
        intro j _
        simp only [Function.comp_apply]
        omega

/-! ## Claim theorems for the inference client -/

/-- C5 (counterexample): a 404 response — neither a connection failure, nor
a timeout, nor a 5xx — is nevertheless retried twice (`raise_for_status`
raises `aiohttp.ClientResponseError`, a `ClientError`, which the generic
retry handler catches): three requests are made with backoff sleeps 3 s and
6 s, refuting "retries ... only on connection failures, timeouts, or 5xx
responses". -/
theorem c5_counterexample_4xx_retried :
    call_whisper_api (fun _ => .resp 404 none) = (.httpFail 404, 3, [3, 6]) ∧
    ¬ 500 ≤ 404 ∧ (404 : Nat) ≠ 503 := by
  refine ⟨by decide, by decide, by decide⟩

/-- C5 (amended): the client makes at most `WHISPER_RETRIES + 1` requests;
an attempt observing any 503 raises `WhisperBusyError` at once, with no
further request; a retry only ever follows a retryable classification
(connection failure/timeout, or an HTTP error fed through the generic
`ClientError` handler — which includes 4xx responses, not only 5xx); and
the backoff sleeps are linear, `3 * (attempt + 1)` seconds. -/
theorem c5_amended_retry_policy :
    (∀ oracle : Nat → WAttempt,
      (call_whisper_api oracle).2.1 ≤ WHISPER_RETRIES + 1) ∧
    (∀ (oracle : Nat → WAttempt) (left : Nat) (m : String),
      classify_attempt (oracle (WHISPER_RETRIES - left)) = .busyNow m →
      call_whisper_from WHISPER_RETRIES oracle left = (.busy m, 1, [])) ∧
    (∀ (oracle : Nat → WAttempt) (left : Nat),
      1 < (call_whisper_from WHISPER_RETRIES oracle left).2.1 →
      ∃ k, classify_attempt (oracle (WHISPER_RETRIES - left)) = .retryable k) ∧
    (∀ s : Nat, 400 ≤ s → ¬ s = 503 → ¬ 500 ≤ s →
      classify_response s none = .retryable (.http s) ∧
      ∀ b : RespBody, classify_response s (some b) = .retryable (.http s)) ∧
    (∀ b : Option RespBody, ∃ m, classify_response 503 b = .busyNow m) ∧
    (∀ oracle : Nat → WAttempt,
      (call_whisper_api oracle).2.2 =
        (List.range ((call_whisper_api oracle).2.1 - 1)).map
          (fun j => 3 * (j + 1))) := by
  refine ⟨?_, ?_, ?_, ?_, ?_, ?_⟩
  · intro oracle
    exact call_from_count_le WHISPER_RETRIES oracle WHISPER_RETRIES
  · intro oracle left m h
    exact call_from_busy WHISPER_RETRIES oracle left m h
  · intro oracle left h
    exact call_from_retried_only_retryable WHISPER_RETRIES oracle left h
  · intro s h4 h503 h5
    constructor
    · simp [classify_response, h503, h5, h4]
    · intro b
      simp [classify_response, h503, h5, h4]
  · intro b
    rcases b with _ | b
    · exact ⟨"Service unavailable", by simp [classify_response]⟩
    · by_cases herr : b.error = some "gpu_busy" ∨ b.error = some "gpu_oom"
      · exact ⟨(b.message).getD "GPU busy",
          by simp [classify_response, herr]⟩
      · exact ⟨"Service unavailable", by simp [classify_response, herr]⟩
  · intro oracle
    have h := call_from_sleeps WHISPER_RETRIES oracle WHISPER_RETRIES le_rfl
    rw [Nat.sub_self] at h
    simpa [call_whisper_api] using h

/-- Witness for C5 (amended): a 503 on the first attempt raises busy with a
single request; an all-500 oracle is retried (3 requests, so the first
attempt was classified retryable); a 404 is classified retryable. -/
theorem c5_amended_retry_policy_witness :
    call_whisper_from WHISPER_RETRIES (fun _ => .resp 503 none) 2 =
        (.busy "Service unavailable", 1, []) ∧
    (∃ k, classify_attempt
        ((fun _ => WAttempt.resp 500 none) (WHISPER_RETRIES - 2)) =
        .retryable k) ∧
    classify_response 404 none = .retryable (.http 404) :=
  ⟨c5_amended_retry_policy.2.1 (fun _ => .resp 503 none) 2
      "Service unavailable" (by decide),
    c5_amended_retry_policy.2.2.1 (fun _ => .resp 500 none) 2 (by decide),
    (c5_amended_retry_policy.2.2.2.1 404 (by decide) (by decide)
      (by decide)).1⟩

theorem classify_response_busy_of_oom (s : Nat) (b : RespBody)
    (h5 : 500 ≤ s) (hoom : oom_text ((b.error).getD "") = true) :
    ∃ m, classify_response s (some b) = .busyNow m := by
  by_cases h503 : s = 503
  · by_cases herr : b.error = some "gpu_busy" ∨ b.error = some "gpu_oom"
    · exact ⟨(b.message).getD "GPU busy",
        by simp [classify_response, h503, herr]⟩
    · exact ⟨"Service unavailable", by simp [classify_response, h503, herr]⟩
  · exact ⟨(b.message).getD "GPU ran out of memory. Try again in a moment.",
      by simp [classify_response, h503, h5, hoom]⟩

/-- C6: a 5xx response whose JSON error body indicates an out-of-memory
condition is raised as `WhisperBusyError` on the very first attempt — one
request, no retry, no fatal error — even though the transport status is a
generic server error. -/
theorem c6_oom_reclassified_as_busy (s : Nat) (b : RespBody)
    (oracle : Nat → WAttempt) (hor : oracle 0 = .resp s (some b))
    (h5 : 500 ≤ s) (hoom : oom_text ((b.error).getD "") = true) :
    ∃ m, call_whisper_api oracle = (.busy m, 1, []) := by
  obtain ⟨m, hm⟩ := classify_response_busy_of_oom s b h5 hoom
  refine ⟨m, call_from_busy WHISPER_RETRIES oracle WHISPER_RETRIES m ?_⟩
  rw [Nat.sub_self, hor]
  simpa [classify_attempt] using hm

/-- Witness for C6: a 500 whose body is
`{"error": "CUDA out of memory"}` yields `WhisperBusyError` after exactly
one request. -/
theorem c6_oom_reclassified_as_busy_witness :
    ∃ m, call_whisper_api
        (fun _ => .resp 500 (some ⟨some "CUDA out of memory", none, ""⟩)) =
      (.busy m, 1, []) :=
  c6_oom_reclassified_as_busy 500 ⟨some "CUDA out of memory", none, ""⟩
    (fun _ => .resp 500 (some ⟨some "CUDA out of memory", none, ""⟩)) rfl
    (by decide) (by decide)

/-! ## Claim theorems for the whisper server -/

/-- C7: a `/transcribe` request carrying an audio file is rejected with 503
`gpu_busy` whenever the probe reports free VRAM below the threshold; the
model state is untouched and no model load or transcription is attempted —
whatever the current load state is. -/
theorem c7_server_admission_control (threshold used total : Int)
    (gpuAvailable : Bool) (now : Int) (inferResult : Option String)
    (st : ModelState) (hlow : total - used < threshold) :
    transcribe threshold (some (used, total)) gpuAvailable now true
        inferResult st = (.gpuBusy, st, false) := by
  have hc : check_vram_available threshold (some (used, total)) = false := by
    simp only [check_vram_available, decide_eq_false_iff_not]
    omega
  simp [transcribe, hc]

/-- Witness for C7: with the default 2048 MB threshold and a probe showing
7000/8000 MB used (1000 MB free), a request against a warm model returns
503 `gpu_busy` without touching the model. -/
theorem c7_server_admission_control_witness :
    transcribe VRAM_THRESHOLD_FREE_MB (some (7000, 8000)) true 0 true
        (some "hi") ⟨true, false, some 0⟩ =
      (.gpuBusy, ⟨true, false, some 0⟩, false) :=
  c7_server_admission_control VRAM_THRESHOLD_FREE_MB 7000 8000 true 0
    (some "hi") ⟨true, false, some 0⟩ (by decide)

/-- C8: when the model has been idle at least the threshold, one watcher
iteration (outer check plus the re-check under the model lock) unloads it,
the next `/health` carries no VRAM fields, and a later `/transcribe` still
succeeds by reloading; the watcher never unloads while the elapsed time
since last use — at either check — is below the threshold. -/
theorem c8_idle_unload (idleSecs now now2 lastUse nowR : Int)
    (st : ModelState) (statsH : Option (Int × Int)) (modelSize : String)
    (threshold : Int) (statsR : Option (Int × Int)) (txt : String)
    (hloaded : st.loaded = true) (hlast : st.lastUsed = some lastUse)
    (hnoerr : st.loadError = false) (h12 : now ≤ now2)
    (hadm : check_vram_available threshold statsR = true) :
    (idleSecs ≤ now - lastUse →
      (unload_model_if_idle idleSecs now now2 st).loaded = false ∧
      (health modelSize statsH
        (unload_model_if_idle idleSecs now now2 st)).vram = none ∧
      (transcribe threshold statsR true nowR true (some txt)
        (unload_model_if_idle idleSecs now now2 st)).1 = .ok txt.trim ∧
      (transcribe threshold statsR true nowR true (some txt)
        (unload_model_if_idle idleSecs now now2 st)).2.1.loaded = true) ∧
    (now - lastUse < idleSecs →
      unload_model_if_idle idleSecs now now2 st = st) ∧
    (now2 - lastUse < idleSecs →
      (unload_model_if_idle idleSecs now now2 st).loaded = true) := by
  refine ⟨?_, ?_, ?_⟩
  · intro hidle
    have h1 : ¬ (now - lastUse < idleSecs) := by omega
    have h2 : ¬ (now2 - lastUse < idleSecs) := by omega
    have hun : unload_model_if_idle idleSecs now now2 st =
        { st with loaded := false, lastUsed := none } := by
      simp [unload_model_if_idle, hloaded, hlast, h1, h2]
    rw [hun]
    refine ⟨rfl, by simp [health], ?_, ?_⟩
    · simp [transcribe, hadm, get_model, hnoerr]
    · simp [transcribe, hadm, get_model, hnoerr]
  · intro h1
    simp [unload_model_if_idle, hloaded, hlast, h1]
  · intro h2
    by_cases h1 : now - lastUse < idleSecs
    · simp [unload_model_if_idle, hloaded, hlast, h1]
    · simp [unload_model_if_idle, hloaded, hlast, h1, h2]

/-- Witness for C8: a model last used at monotonic time 0, checked at time
1000 with a 900 s idle threshold, is unloaded; `/health` then has no VRAM
fields and a `/transcribe` at time 1001 succeeds by reloading. -/
theorem c8_idle_unload_witness :
    (unload_model_if_idle 900 1000 1000 ⟨true, false, some 0⟩).loaded = false ∧
    (health "medium" (some (5000, 8000))
      (unload_model_if_idle 900 1000 1000 ⟨true, false, some 0⟩)).vram = none ∧
    (transcribe 2048 none true 1001 true (some "ok")
      (unload_model_if_idle 900 1000 1000 ⟨true, false, some 0⟩)).1 =
        .ok "ok".trim ∧
    (transcribe 2048 none true 1001 true (some "ok")
      (unload_model_if_idle 900 1000 1000 ⟨true, false, some 0⟩)).2.1.loaded =
        true :=
  (c8_idle_unload 900 1000 1000 0 1001 ⟨true, false, some 0⟩
    (some (5000, 8000)) "medium" 2048 none "ok" rfl rfl rfl (by decide)
    rfl).1 (by decide)

/-- C10: when the VRAM probe returns no numbers, `check_vram_available` is
`True` and the `/transcribe` request is admitted: inference work is
attempted and the response is never 503 `gpu_busy`, regardless of actual
free accelerator memory. -/
theorem c10_fail_open_admission (threshold : Int) (gpuAvailable : Bool)
    (now : Int) (inferResult : Option String) (st : ModelState) :
    check_vram_available threshold none = true ∧
    (transcribe threshold none gpuAvailable now true inferResult st).2.2 =
      true ∧
    (transcribe threshold none gpuAvailable now true inferResult st).1 ≠
      .gpuBusy := by
  refine ⟨rfl, ?_, ?_⟩ <;>
  · simp only [transcribe, check_vram_available]
    rcases hg : get_model gpuAvailable now st with ⟨st', ok⟩
    cases ok <;> cases inferResult <;> simp [hg]

/-! ## Segment-loop lemmas -/

theorem run_loop_nobusy (mode : Mode) (infer : Nat → Nat → InferRes)
    (wav : String) :
    ∀ (segs : List String) (i : Nat),
      (∀ j, j < segs.length →
        (iter_result mode (infer (i + j))).2 ≠ .busyAbort) →
      (run_loop mode infer wav i segs).2.1 = false ∧
      (run_loop mode infer wav i segs).2.2 =
        segs.filter (fun s => ¬ (s = wav)) := by
  intro segs
  induction segs with
  | nil => intro i _; simp [run_loop]
  | cons s rest ih =>
    intro i hno
    have h0 : (iter_result mode (infer i)).2 ≠ .busyAbort := by
      have := hno 0 (by simp)
      simpa using this
    have hrec := ih (i + 1) (fun j hj => by
      have hh := hno (j + 1) (by simpa using Nat.succ_lt_succ hj)
      have e : i + (j + 1) = i + 1 + j := by omega
      rwa [e] at hh)
    by_cases hw : s = wav
    · constructor
      · simp [run_loop, h0, hrec.1]
      · simp [run_loop, h0, hw, hrec.2]
    · constructor
      · simp [run_loop, h0, hrec.1]
      · simp [run_loop, h0, hw, hrec.2]

theorem run_loop_busy (mode : Mode) (infer : Nat → Nat → InferRes)
    (wav : String) :
    ∀ (segs : List String) (i k : Nat),
      k < segs.length →
      (∀ j, j < k → (iter_result mode (infer (i + j))).2 ≠ .busyAbort) →
      (iter_result mode (infer (i + k))).2 = .busyAbort →
      (run_loop mode infer wav i segs).2.1 = true ∧
      (∀ c ∈ (run_loop mode infer wav i segs).1, c.1 ≤ i + k) ∧
      (run_loop mode infer wav i segs).2.2 =
        (segs.take (k + 1)).filter (fun s => ¬ (s = wav)) := by
  intro segs
  induction segs with
  | nil =>
    intro i k hk
    exact absurd hk (by simp)
  | cons s rest ih =>
    intro i k hk hpre hbusy
    cases k with
    | zero =>
      have h0 : (iter_result mode (infer i)).2 = .busyAbort := by
        simpa using hbusy
      refine ⟨by simp [run_loop, h0], ?_, ?_⟩
      · intro c hc
        simp [run_loop, h0] at hc
        obtain ⟨j, _, rfl⟩ := hc
        simp
      · by_cases hw : s = wav <;> simp [run_loop, h0, hw]
    | succ k' =>
      have h0 : (iter_result mode (infer i)).2 ≠ .busyAbort := by
        have := hpre 0 (Nat.succ_pos k')
        simpa using this
      have hrec := ih (i + 1) k' (by simpa using Nat.lt_of_succ_lt_succ hk)
        (fun j hj => by
          have hh := hpre (j + 1) (Nat.succ_lt_succ hj)
          have e : i + (j + 1) = i + 1 + j := by omega
          rwa [e] at hh)
        (by
          have e : i + (k' + 1) = i + 1 + k' := by omega
          rwa [e] at hbusy)
      refine ⟨by simp [run_loop, h0, hrec.1], ?_, ?_⟩
      · intro c hc
        simp [run_loop, h0] at hc
        rcases hc with ⟨j, _, rfl⟩ | hc
        · simp
        · have := hrec.2.1 c hc
          omega
      · by_cases hw : s = wav <;>
          simp [run_loop, h0, hw, hrec.2.2, List.take_succ_cons]

/-! ## Filesystem (`unlink`) lemmas -/

theorem applyUnlinks_fs_sub :
    ∀ (reqs fs : List String), (applyUnlinks fs reqs).1 ⊆ fs := by
  intro reqs
  induction reqs with
  | nil => intro fs; simp [applyUnlinks]
  | cons q qs ih =>
    intro fs
    by_cases hq : q ∈ fs
    · simp only [applyUnlinks, if_pos hq]
      exact (ih (fs.erase q)).trans (List.erase_subset _ _)
    · simp only [applyUnlinks, if_neg hq]
      exact ih fs

theorem applyUnlinks_not_mem_fs (reqs fs : List String) (p : String)
    (h : p ∉ fs) : p ∉ (applyUnlinks fs reqs).1 :=
  fun hmem => h (applyUnlinks_fs_sub reqs fs hmem)

theorem applyUnlinks_removed_sub :
    ∀ (reqs fs : List String), (applyUnlinks fs reqs).2 ⊆ reqs := by
  intro reqs
  induction reqs with
  | nil => intro fs; simp [applyUnlinks]
  | cons q qs ih =>
    intro fs
    by_cases hq : q ∈ fs
    · simp only [applyUnlinks, if_pos hq]
      intro x hx
      rcases List.mem_cons.mp hx with e | hx2
      · simp [e]
      · exact List.mem_cons_of_mem q (ih (fs.erase q) hx2)
    · simp only [applyUnlinks, if_neg hq]
      exact (ih fs).trans (List.subset_cons_self q qs)

theorem applyUnlinks_count_zero_not_req (reqs fs : List String) (p : String)
    (h : p ∉ reqs) : (applyUnlinks fs reqs).2.count p = 0 :=
  List.count_eq_zero.mpr (fun hmem => h (applyUnlinks_removed_sub reqs fs hmem))

theorem applyUnlinks_count_zero_not_fs :
    ∀ (reqs fs : List String) (p : String), p ∉ fs →
      (applyUnlinks fs reqs).2.count p = 0 := by
  intro reqs
  induction reqs with
  | nil => intro fs p _; simp [applyUnlinks]
  | cons q qs ih =>
    intro fs p hp
    by_cases hq : q ∈ fs
    · have hqp : q ≠ p := fun e => hp (e ▸ hq)
      simp only [applyUnlinks, if_pos hq]
      rw [List.count_cons_of_ne (fun e => hqp e.symm)]
      exact ih (fs.erase q) p (fun hmem => hp (List.erase_subset _ _ hmem))
    · simp only [applyUnlinks, if_neg hq]
      exact ih fs p hp

theorem applyUnlinks_count_one :
    ∀ (reqs fs : List String) (p : String), reqs.Nodup → p ∈ fs →
      p ∈ reqs → (applyUnlinks fs reqs).2.count p = 1 := by
  intro reqs
  induction reqs with
  | nil => intro fs p _ _ hm; exact absurd hm (by simp)
  | cons q qs ih =>
    intro fs p hnd hfs hm
    have hnd' : qs.Nodup := (List.nodup_cons.mp hnd).2
    have hq_not : q ∉ qs := (List.nodup_cons.mp hnd).1
    by_cases hq : q ∈ fs
    · simp only [applyUnlinks, if_pos hq]
      by_cases hqp : q = p
      · subst hqp
        rw [List.count_cons_self]
        have h0 : (applyUnlinks (fs.erase q) qs).2.count q = 0 :=
          applyUnlinks_count_zero_not_req qs (fs.erase q) q hq_not
        omega
      · rw [List.count_cons_of_ne (fun e => hqp e.symm)]
        have hpqs : p ∈ qs := by
          rcases List.mem_cons.mp hm with e | h
          · exact absurd e.symm hqp
          · exact h
        exact ih (fs.erase q) p hnd'
          ((List.mem_erase_of_ne (fun e => hqp e.symm)).mpr hfs) hpqs
    · simp only [applyUnlinks, if_neg hq]
      have hqp : q ≠ p := fun e => hq (e ▸ hfs)
      have hpqs : p ∈ qs := by
        rcases List.mem_cons.mp hm with e | h
        · exact absurd e.symm hqp
        · exact h
      exact ih fs p hnd' hfs hpqs

theorem applyUnlinks_not_mem_final :
    ∀ (reqs fs : List String) (p : String), fs.Nodup → p ∈ fs →
      p ∈ reqs → p ∉ (applyUnlinks fs reqs).1 := by
  intro reqs
  induction reqs with
  | nil => intro fs p _ _ hm; exact absurd hm (by simp)
  | cons q qs ih =>
    intro fs p hnd hfs hm
    by_cases hq : q ∈ fs
    · simp only [applyUnlinks, if_pos hq]
      by_cases hqp : q = p
      · subst hqp
        have hout : q ∉ fs.erase q := by
          intro hin
          exact absurd ((hnd.mem_erase_iff).mp hin).1 (by simp)
        exact applyUnlinks_not_mem_fs qs (fs.erase q) q hout
      · have hpqs : p ∈ qs := by
          rcases List.mem_cons.mp hm with e | h
          · exact absurd e.symm hqp
          · exact h
        exact ih (fs.erase q) p (hnd.erase q)
          ((List.mem_erase_of_ne (fun e => hqp e.symm)).mpr hfs) hpqs
    · simp only [applyUnlinks, if_neg hq]
      have hqp : q ≠ p := fun e => hq (e ▸ hfs)
      have hpqs : p ∈ qs := by
        rcases List.mem_cons.mp hm with e | h
        · exact absurd e.symm hqp
        · exact h
      exact ih fs p hnd hfs hpqs

theorem applyUnlinks_mem_final :
    ∀ (reqs fs : List String) (p : String), p ∈ fs → p ∉ reqs →
      p ∈ (applyUnlinks fs reqs).1 := by
  intro reqs
  induction reqs with
  | nil => intro fs p hfs _; simpa [applyUnlinks] using hfs
  | cons q qs ih =>
    intro fs p hfs hm
    have hqp : q ≠ p := fun e => hm (by simp [e])
    have hpqs : p ∉ qs := fun h => hm (List.mem_cons_of_mem q h)
    by_cases hq : q ∈ fs
    · simp only [applyUnlinks, if_pos hq]
      exact ih (fs.erase q) p
        ((List.mem_erase_of_ne (fun e => hqp e.symm)).mpr hfs) hpqs
    · simp only [applyUnlinks, if_neg hq]
      exact ih fs p hfs hpqs

/-- `process_audio_async` for a job that passed conversion/segmentation,
written in terms of the segment loop and the cleanup unlinks. -/
theorem process_audio_async_run (now : Int) (user : Nat)
    (fileId filePath wavPath : String) (segs : List String) (mode : Mode)
    (infer : Nat → Nat → InferRes) (st : BotState) (hsegs : segs ≠ []) :
    process_audio_async now user fileId filePath wavPath segs mode infer
        true st =
      (if (run_loop mode infer wavPath 0 segs).2.1 then
        ⟨{ st with pending := dictSet user (fileId, filePath) st.pending, fs := (applyUnlinks st.fs ((run_loop mode infer wavPath 0 segs).2.2 ++ [filePath, wavPath])).1 },
          .busyRetry,
          (applyUnlinks st.fs ((run_loop mode infer wavPath 0 segs).2.2 ++ [filePath, wavPath])).2,
          (run_loop mode infer wavPath 0 segs).1⟩
      else
        ⟨{ st with lastProc := dictSet (user, fileId) now st.lastProc, fs := (applyUnlinks st.fs ((run_loop mode infer wavPath 0 segs).2.2 ++ [filePath, wavPath])).1 },
          .completed,
          (applyUnlinks st.fs ((run_loop mode infer wavPath 0 segs).2.2 ++ [filePath, wavPath])).2,
          (run_loop mode infer wavPath 0 segs).1⟩) := by
  simp [process_audio_async, hsegs]

/-! ## Claim theorems for the worker pipeline -/

/-- C2: when the first `WhisperBusyError` arises while processing segment
`k` (0-based), the loop breaks: no inference call is made for any segment
after `k`, the run ends in `BusyRetry`, and afterwards `pending_retry`
holds exactly one entry for that owner, mapping it to that job's
`(file_id, file_path)`. -/
theorem c2_busy_short_circuit (mode : Mode) (infer : Nat → Nat → InferRes)
    (segs : List String) (k : Nat) (user : Nat)
    (fileId filePath wavPath : String) (now : Int) (st : BotState)
    (hk : k < segs.length)
    (hpre : ∀ j, j < k → (iter_result mode (infer j)).2 ≠ .busyAbort)
    (hbusy : (iter_result mode (infer k)).2 = .busyAbort) :
    (process_audio_async now user fileId filePath wavPath segs mode infer
      true st).outcome = .busyRetry ∧
    (∀ c ∈ (process_audio_async now user fileId filePath wavPath segs mode
      infer true st).calls, c.1 ≤ k) ∧
    countKey user (process_audio_async now user fileId filePath wavPath segs
      mode infer true st).st.pending = 1 ∧
    dlookup user (process_audio_async now user fileId filePath wavPath segs
      mode infer true st).st.pending = some (fileId, filePath) := by
  have hsegs : segs ≠ [] := by
    intro h
    rw [h] at hk
    simp at hk
  have hloop := run_loop_busy mode infer wavPath segs 0 k hk
    (fun j hj => by simpa using hpre j hj) (by simpa using hbusy)
  rw [process_audio_async_run now user fileId filePath wavPath segs mode
    infer st hsegs, if_pos hloop.1]
  refine ⟨rfl, ?_, countKey_dictSet user (fileId, filePath) st.pending,
    dlookup_dictSet user (fileId, filePath) st.pending⟩
  intro c hc
  have := hloop.2.1 c hc
  simpa using this

/-- Witness for C2: five segments in fast mode, busy on the second (k = 1):
only segments 0 and 1 are ever called, and a single pending-retry entry
maps owner 7 to the job. -/
theorem c2_busy_short_circuit_witness :
    (process_audio_async 0 7 "job" "a.ogg" "a.wav"
      ["p0", "p1", "p2", "p3", "p4"] .fast
      (fun i _ => if i = 1 then .busyError else .ok) true
      ⟨[], [], [], []⟩).outcome = .busyRetry ∧
    (∀ c ∈ (process_audio_async 0 7 "job" "a.ogg" "a.wav"
      ["p0", "p1", "p2", "p3", "p4"] .fast
      (fun i _ => if i = 1 then .busyError else .ok) true
      ⟨[], [], [], []⟩).calls, c.1 ≤ 1) ∧
    countKey 7 (process_audio_async 0 7 "job" "a.ogg" "a.wav"
      ["p0", "p1", "p2", "p3", "p4"] .fast
      (fun i _ => if i = 1 then .busyError else .ok) true
      ⟨[], [], [], []⟩).st.pending = 1 ∧
    dlookup 7 (process_audio_async 0 7 "job" "a.ogg" "a.wav"
      ["p0", "p1", "p2", "p3", "p4"] .fast
      (fun i _ => if i = 1 then .busyError else .ok) true
      ⟨[], [], [], []⟩).st.pending = some ("job", "a.ogg") :=
  c2_busy_short_circuit .fast (fun i _ => if i = 1 then .busyError else .ok)
    ["p0", "p1", "p2", "p3", "p4"] 1 7 "job" "a.ogg" "a.wav" 0
    ⟨[], [], [], []⟩ (by decide) (by decide) (by decide)

/-- C1 (counterexample): a two-segment job that goes busy on segment 0
ends in `BusyRetry` with segment file `a_part1.wav` still on disk — the
loop `break` skips the later iterations' `finally` unlinks and the outer
`finally` only removes the source and the wav. This refutes "for every
terminal outcome ... every segment file produced for that job by
split_audio no longer exist[s] on disk". -/
theorem c1_counterexample_busy_leaves_segment :
    (process_audio_async 0 1 "f" "a.ogg" "a.wav" ["a_part0.wav", "a_part1.wav"]
      .fast (fun i _ => if i = 0 then .busyError else .ok) true
      ⟨[], [], [], ["a.ogg", "a.wav", "a_part0.wav", "a_part1.wav"]⟩).outcome
        = .busyRetry ∧
    "a_part1.wav" ∈ (process_audio_async 0 1 "f" "a.ogg" "a.wav"
      ["a_part0.wav", "a_part1.wav"]
      .fast (fun i _ => if i = 0 then .busyError else .ok) true
      ⟨[], [], [], ["a.ogg", "a.wav", "a_part0.wav", "a_part1.wav"]⟩).st.fs := by
  constructor
  · decide
  · decide

/-- C1 (amended): for a job whose split segments, source and wav are
distinct files present on disk: (a) if conversion/segmentation fails, the
source and wav are removed exactly once; (b) if every segment iteration
finishes without a busy abort (Done, including iterations that skipped on
error), the source, the wav and every segment file are removed exactly
once and none remains on disk; (c) if the loop aborts busy at segment `k`,
the source, the wav and the segments up to and including `k` are removed
exactly once, while every segment after `k` is never removed and remains
on disk. -/
theorem c1_amended_cleanup (mode : Mode) (infer : Nat → Nat → InferRes)
    (now : Int) (user : Nat) (fileId filePath wavPath : String)
    (segs : List String) (st : BotState)
    (hfw : filePath ≠ wavPath)
    (hfseg : filePath ∉ segs) (hwseg : wavPath ∉ segs)
    (hnd : segs.Nodup)
    (hf : filePath ∈ st.fs) (hw : wavPath ∈ st.fs)
    (hsAll : ∀ s ∈ segs, s ∈ st.fs) (hfsnd : st.fs.Nodup) :
    ((process_audio_async now user fileId filePath wavPath segs mode infer false st).outcome = .failed ∧
     filePath ∉ (process_audio_async now user fileId filePath wavPath segs mode infer false st).st.fs ∧
     wavPath ∉ (process_audio_async now user fileId filePath wavPath segs mode infer false st).st.fs ∧
     (process_audio_async now user fileId filePath wavPath segs mode infer false st).removed.count filePath = 1 ∧
     (process_audio_async now user fileId filePath wavPath segs mode infer false st).removed.count wavPath = 1) ∧
    (segs ≠ [] →
     (∀ j, j < segs.length → (iter_result mode (infer j)).2 ≠ .busyAbort) →
     (process_audio_async now user fileId filePath wavPath segs mode infer true st).outcome = .completed ∧
     filePath ∉ (process_audio_async now user fileId filePath wavPath segs mode infer true st).st.fs ∧
     wavPath ∉ (process_audio_async now user fileId filePath wavPath segs mode infer true st).st.fs ∧
     (∀ s ∈ segs, s ∉ (process_audio_async now user fileId filePath wavPath segs mode infer true st).st.fs) ∧
     (process_audio_async now user fileId filePath wavPath segs mode infer true st).removed.count filePath = 1 ∧
     (process_audio_async now user fileId filePath wavPath segs mode infer true st).removed.count wavPath = 1 ∧
     (∀ s ∈ segs, (process_audio_async now user fileId filePath wavPath segs mode infer true st).removed.count s = 1)) ∧
    (∀ k, k < segs.length →
     (∀ j, j < k → (iter_result mode (infer j)).2 ≠ .busyAbort) →
     (iter_result mode (infer k)).2 = .busyAbort →
     (process_audio_async now user fileId filePath wavPath segs mode infer true st).outcome = .busyRetry ∧
     filePath ∉ (process_audio_async now user fileId filePath wavPath segs mode infer true st).st.fs ∧
     wavPath ∉ (process_audio_async now user fileId filePath wavPath segs mode infer true st).st.fs ∧
     (process_audio_async now user fileId filePath wavPath segs mode infer true st).removed.count filePath = 1 ∧
     (process_audio_async now user fileId filePath wavPath segs mode infer true st).removed.count wavPath = 1 ∧
     (∀ s ∈ segs.take (k + 1),
       s ∉ (process_audio_async now user fileId filePath wavPath segs mode infer true st).st.fs ∧
       (process_audio_async now user fileId filePath wavPath segs mode infer true st).removed.count s = 1) ∧
     (∀ s ∈ segs.drop (k + 1),
       s ∈ (process_audio_async now user fileId filePath wavPath segs mode infer true st).st.fs ∧
       (process_audio_async now user fileId filePath wavPath segs mode infer true st).removed.count s = 0)) := by
  refine ⟨?_, ?_, ?_⟩
  · have hU : ([filePath, wavPath] : List String).Nodup := by simp [hfw]
    have hrun : process_audio_async now user fileId filePath wavPath segs mode infer false st =
        ⟨{ st with fs := (applyUnlinks st.fs [filePath, wavPath]).1 }, .failed,
          (applyUnlinks st.fs [filePath, wavPath]).2, []⟩ := by
      simp [process_audio_async]
    rw [hrun]
    exact ⟨rfl,
      applyUnlinks_not_mem_final _ _ _ hfsnd hf (by simp),
      applyUnlinks_not_mem_final _ _ _ hfsnd hw (by simp),
      applyUnlinks_count_one _ _ _ hU hf (by simp),
      applyUnlinks_count_one _ _ _ hU hw (by simp)⟩
  · intro hne hnb
    have hloop := run_loop_nobusy mode infer wavPath segs 0
      (fun j hj => by simpa using hnb j hj)
    have hfil : segs.filter (fun s => ¬ (s = wavPath)) = segs := by
      apply List.filter_eq_self.mpr
      intro a ha
      simp only [decide_eq_true_eq]
      exact fun e => hwseg (e ▸ ha)
    have hUnd : (segs ++ [filePath, wavPath]).Nodup := by
      rw [List.nodup_append]
      refine ⟨hnd, by simp [hfw], ?_⟩
      intro a ha hmem
      rcases List.mem_cons.mp hmem with e | h2
      · exact hfseg (e ▸ ha)
      · rcases List.mem_cons.mp h2 with e | h3
        · exact hwseg (e ▸ ha)
        · simp at h3
    rw [process_audio_async_run now user fileId filePath wavPath segs mode
      infer st hne, if_neg (by simp [hloop.1]), hloop.2, hfil]
    refine ⟨rfl,
      applyUnlinks_not_mem_final _ _ _ hfsnd hf (by simp),
      applyUnlinks_not_mem_final _ _ _ hfsnd hw (by simp),
      ?_,
      applyUnlinks_count_one _ _ _ hUnd hf (by simp),
      applyUnlinks_count_one _ _ _ hUnd hw (by simp),
      ?_⟩
    · intro s hs
      exact applyUnlinks_not_mem_final _ _ _ hfsnd (hsAll s hs)
        (List.mem_append_left _ hs)
    · intro s hs
      exact applyUnlinks_count_one _ _ _ hUnd (hsAll s hs)
        (List.mem_append_left _ hs)
  · intro k hk hpre hbusy
    have hne : segs ≠ [] := by
      intro h
      rw [h] at hk
      simp at hk
    have hloop := run_loop_busy mode infer wavPath segs 0 k hk
      (fun j hj => by simpa using hpre j hj) (by simpa using hbusy)
    have htake_sub : ∀ s ∈ segs.take (k + 1), s ∈ segs :=
      fun s hs => List.take_subset _ _ hs
    have hfil : (segs.take (k + 1)).filter (fun s => ¬ (s = wavPath)) =
        segs.take (k + 1) := by
      apply List.filter_eq_self.mpr
      intro a ha
      simp only [decide_eq_true_eq]
      exact fun e => hwseg (e ▸ htake_sub a ha)
    have htake_nd : (segs.take (k + 1)).Nodup :=
      (List.take_sublist _ _).nodup hnd
    have hUnd : (segs.take (k + 1) ++ [filePath, wavPath]).Nodup := by
      rw [List.nodup_append]
      refine ⟨htake_nd, by simp [hfw], ?_⟩
      intro a ha hmem
      rcases List.mem_cons.mp hmem with e | h2
      · exact hfseg (e ▸ htake_sub a ha)
      · rcases List.mem_cons.mp h2 with e | h3
        · exact hwseg (e ▸ htake_sub a ha)
        · simp at h3
    rw [process_audio_async_run now user fileId filePath wavPath segs mode
      infer st hne, if_pos hloop.1, hloop.2.2, hfil]
    refine ⟨rfl,
      applyUnlinks_not_mem_final _ _ _ hfsnd hf (by simp),
      applyUnlinks_not_mem_final _ _ _ hfsnd hw (by simp),
      applyUnlinks_count_one _ _ _ hUnd hf (by simp),
      applyUnlinks_count_one _ _ _ hUnd hw (by simp),
      ?_, ?_⟩
    · intro s hs
      exact ⟨applyUnlinks_not_mem_final _ _ _ hfsnd (hsAll s (htake_sub s hs))
          (List.mem_append_left _ hs),
        applyUnlinks_count_one _ _ _ hUnd (hsAll s (htake_sub s hs))
          (List.mem_append_left _ hs)⟩
    · intro s hs
      have hsSegs : s ∈ segs := List.drop_subset _ _ hs
      have hnotU : s ∉ segs.take (k + 1) ++ [filePath, wavPath] := by
        intro hmem
        rcases List.mem_append.mp hmem with h1 | h2
        · have hsplit : (segs.take (k + 1) ++ segs.drop (k + 1)).Nodup := by
            rw [List.take_append_drop]
            exact hnd
          exact (List.nodup_append.mp hsplit).2.2 h1 hs
        · rcases List.mem_cons.mp h2 with e | h3
          · exact hfseg (e ▸ hsSegs)
          · rcases List.mem_cons.mp h3 with e | h4
            · exact hwseg (e ▸ hsSegs)
            · simp at h4
      exact ⟨applyUnlinks_mem_final _ _ _ (hsAll s hsSegs) hnotU,
        applyUnlinks_count_zero_not_req _ _ _ hnotU⟩

/-- Witness for C1 (amended), conversion-failure conjunct: a failed job's
source and wav are each removed exactly once and are gone from disk. -/
theorem c1_amended_cleanup_witness :
    (process_audio_async 0 1 "f" "a.ogg" "a.wav" ["p0.wav", "p1.wav"] .fast
      (fun _ _ => .ok) false
      ⟨[], [], [], ["a.ogg", "a.wav", "p0.wav", "p1.wav"]⟩).outcome = .failed ∧
    "a.ogg" ∉ (process_audio_async 0 1 "f" "a.ogg" "a.wav" ["p0.wav", "p1.wav"] .fast
      (fun _ _ => .ok) false
      ⟨[], [], [], ["a.ogg", "a.wav", "p0.wav", "p1.wav"]⟩).st.fs ∧
    "a.wav" ∉ (process_audio_async 0 1 "f" "a.ogg" "a.wav" ["p0.wav", "p1.wav"] .fast
      (fun _ _ => .ok) false
      ⟨[], [], [], ["a.ogg", "a.wav", "p0.wav", "p1.wav"]⟩).st.fs ∧
    (process_audio_async 0 1 "f" "a.ogg" "a.wav" ["p0.wav", "p1.wav"] .fast
      (fun _ _ => .ok) false
      ⟨[], [], [], ["a.ogg", "a.wav", "p0.wav", "p1.wav"]⟩).removed.count "a.ogg" = 1 ∧
    (process_audio_async 0 1 "f" "a.ogg" "a.wav" ["p0.wav", "p1.wav"] .fast
      (fun _ _ => .ok) false
      ⟨[], [], [], ["a.ogg", "a.wav", "p0.wav", "p1.wav"]⟩).removed.count "a.wav" = 1 :=
  (c1_amended_cleanup .fast (fun _ _ => .ok) 0 1 "f" "a.ogg" "a.wav"
    ["p0.wav", "p1.wav"] ⟨[], [], [], ["a.ogg", "a.wav", "p0.wav", "p1.wav"]⟩
    (by decide) (by decide) (by decide) (by decide) (by decide) (by decide)
    (by decide) (by decide)).1

/-- C3 (counterexample): after a busy run, `pending_retry` maps the owner
to the job, but the `finally` cleanup has already deleted the stored
`file_path`; triggering the retry action therefore re-submits nothing
(the queue stays empty), refuting "whenever a PendingRetry entry exists
and the owner triggers the retry action, the same tuple is re-submitted
to the job queue exactly once". -/
theorem c3_counterexample_file_deleted :
    dlookup 1 (process_audio_async 0 1 "f" "audios/f.ogg" "audios/f.wav"
      ["audios/f_part0.wav", "audios/f_part1.wav"] .fast
      (fun _ _ => .busyError) true
      ⟨[], [], [], ["audios/f.ogg", "audios/f.wav", "audios/f_part0.wav",
        "audios/f_part1.wav"]⟩).st.pending = some ("f", "audios/f.ogg") ∧
    (retry_callback 1 (process_audio_async 0 1 "f" "audios/f.ogg"
      "audios/f.wav" ["audios/f_part0.wav", "audios/f_part1.wav"] .fast
      (fun _ _ => .busyError) true
      ⟨[], [], [], ["audios/f.ogg", "audios/f.wav", "audios/f_part0.wav",
        "audios/f_part1.wav"]⟩).st).2 = .fileGone ∧
    (retry_callback 1 (process_audio_async 0 1 "f" "audios/f.ogg"
      "audios/f.wav" ["audios/f_part0.wav", "audios/f_part1.wav"] .fast
      (fun _ _ => .busyError) true
      ⟨[], [], [], ["audios/f.ogg", "audios/f.wav", "audios/f_part0.wav",
        "audios/f_part1.wav"]⟩).st).1.queue = [] := by
  refine ⟨by decide, by decide, by decide⟩

/-- C3 (amended): when a PendingRetry entry exists *and the stored file
still exists on disk*, triggering the retry action re-submits exactly that
`(ownerID, jobID, sourcePath)` once and removes the entry; a second
invocation in quick succession submits nothing and reports that nothing is
pending. (When the file no longer exists — as the busy path's cleanup
guarantees for a freshly rejected job — the entry is dropped and nothing
is submitted.) -/
theorem c3_amended_retry_idempotent (user : Nat) (fid path : String)
    (st : BotState)
    (hlk : dlookup user st.pending = some (fid, path)) (hex : path ∈ st.fs) :
    (retry_callback user st).2 = .retrying ∧
    (retry_callback user st).1.queue = st.queue ++ [(user, fid, path)] ∧
    dlookup user (retry_callback user st).1.pending = none ∧
    (retry_callback user (retry_callback user st).1).2 = .nothingPending ∧
    (retry_callback user (retry_callback user st).1).1.queue =
      st.queue ++ [(user, fid, path)] := by
  have h1 : retry_callback user st =
      ({ st with pending := dictDel user st.pending,
                 queue := st.queue ++ [(user, fid, path)] }, .retrying) := by
    simp [retry_callback, hlk, hex]
  have h2 : dlookup user (dictDel user st.pending) = none :=
    dlookup_dictDel user st.pending
  rw [h1]
  refine ⟨rfl, rfl, h2, ?_, ?_⟩
  · simp [retry_callback, h2]
  · simp [retry_callback, h2]

/-- Witness for C3 (amended): owner 1 has a pending entry whose file still
exists; retry re-queues it once, and a second press reports nothing
pending. -/
theorem c3_amended_retry_idempotent_witness :
    (retry_callback 1 ⟨[(1, ("f", "p"))], [], [], ["p"]⟩).2 = .retrying ∧
    (retry_callback 1 ⟨[(1, ("f", "p"))], [], [], ["p"]⟩).1.queue =
      [] ++ [(1, "f", "p")] ∧
    dlookup 1 (retry_callback 1
      ⟨[(1, ("f", "p"))], [], [], ["p"]⟩).1.pending = none ∧
    (retry_callback 1 (retry_callback 1
      ⟨[(1, ("f", "p"))], [], [], ["p"]⟩).1).2 = .nothingPending ∧
    (retry_callback 1 (retry_callback 1
      ⟨[(1, ("f", "p"))], [], [], ["p"]⟩).1).1.queue = [] ++ [(1, "f", "p")] :=
  c3_amended_retry_idempotent 1 "f" "p" ⟨[(1, ("f", "p"))], [], [], ["p"]⟩
    (by decide) (by decide)

/-- C4 (counterexample): the duplicate guard is keyed on the *completion*
timestamp (bot.py line 871), not the submission time. Submitting at time
0, completing at 30, and resubmitting at 85 — more than 60 seconds after
the first submission — still yields only one enqueued job plus a skip
notice, refuting "submitting the same pair again more than 60 seconds
later yields a second processed job". -/
theorem c4_counterexample_cooldown_from_completion :
    (85 : Int) - 0 > DUPLICATE_COOLDOWN_SEC ∧
    (run_dup [.submit 0 1 "a", .complete 30 1 "a", .submit 85 1 "a"]).enq =
      [(1, "a")] ∧
    (run_dup [.submit 0 1 "a", .complete 30 1 "a", .submit 85 1 "a"]).skips =
      [(1, "a")] := by
  refine ⟨by decide, by decide, by decide⟩

/-- C4 (amended): the 60-second cooldown is measured from the completion
recorded at bot.py line 871. For submit(t1), complete(tc), submit(t2) with
t1 ≤ tc ≤ t2: the resubmission is skipped (one enqueued job, one skip
notice, nothing added to the queue) iff t2 - tc < 60, and is processed
again when t2 - tc ≥ 60 (whether or not the entry was evicted as older
than 600 s); a resubmission arriving before the first job completes is
admitted again (two enqueued jobs, no skip). The admission check runs
before the queue `put`, so the queue never receives a suppressed
duplicate. -/
theorem c4_amended_duplicate_suppression (t1 tc t2 : Int) (u : Nat)
    (f : String) (_h1 : t1 ≤ tc) (h2 : tc ≤ t2) :
    (t2 - tc < DUPLICATE_COOLDOWN_SEC →
      run_dup [.submit t1 u f, .complete tc u f, .submit t2 u f] =
        ⟨[((u, f), tc)], [(u, f)], [(u, f)]⟩) ∧
    (DUPLICATE_COOLDOWN_SEC ≤ t2 - tc →
      (run_dup [.submit t1 u f, .complete tc u f, .submit t2 u f]).enq =
        [(u, f), (u, f)] ∧
      (run_dup [.submit t1 u f, .complete tc u f, .submit t2 u f]).skips =
        []) ∧
    ((run_dup [.submit t1 u f, .submit t2 u f]).enq = [(u, f), (u, f)] ∧
     (run_dup [.submit t1 u f, .submit t2 u f]).skips = []) := by
  have hmid : run_dup [.submit t1 u f, .complete tc u f] =
      ⟨[((u, f), tc)], [(u, f)], []⟩ := by
    simp [run_dup, dup_step, handle_voice, evict_old_last_processed,
      dlookup, dictSet]
  have hstep3 : ∀ st : DupState,
      run_dup [.submit t1 u f, .complete tc u f, .submit t2 u f] =
        handle_voice t2 u f ⟨[((u, f), tc)], [(u, f)], []⟩ := by
    intro _
    have : run_dup [.submit t1 u f, .complete tc u f, .submit t2 u f] =
        dup_step (run_dup [.submit t1 u f, .complete tc u f])
          (.submit t2 u f) := by
      simp [run_dup]
    rw [this, hmid]
    rfl
  refine ⟨?_, ?_, ?_⟩
  · intro hlt
    rw [hstep3 ⟨[], [], []⟩]
    have hev : ¬ (t2 - tc > LAST_PROCESSED_MAX_AGE) := by
      simp only [DUPLICATE_COOLDOWN_SEC] at hlt
      simp only [LAST_PROCESSED_MAX_AGE]
      omega
    have hevict : evict_old_last_processed t2 [((u, f), tc)] =
        [((u, f), tc)] := by
      simp only [LAST_PROCESSED_MAX_AGE] at hev
      simp [evict_old_last_processed, LAST_PROCESSED_MAX_AGE]
      omega
    have hdl : dlookup (u, f) [((u, f), tc)] = some tc := by simp [dlookup]
    simp [handle_voice, hevict, hdl, hlt]
  · intro hge
    rw [hstep3 ⟨[], [], []⟩]
    by_cases hev : t2 - tc > LAST_PROCESSED_MAX_AGE
    · have hevict : evict_old_last_processed t2 [((u, f), tc)] = [] := by
        simp only [LAST_PROCESSED_MAX_AGE] at hev
        simp [evict_old_last_processed, LAST_PROCESSED_MAX_AGE]
        omega
      constructor <;> simp [handle_voice, hevict, dlookup]
    · have hevict : evict_old_last_processed t2 [((u, f), tc)] =
          [((u, f), tc)] := by
        simp only [LAST_PROCESSED_MAX_AGE] at hev
        simp [evict_old_last_processed, LAST_PROCESSED_MAX_AGE]
        omega
      have hdl : dlookup (u, f) [((u, f), tc)] = some tc := by simp [dlookup]
      have hnlt : ¬ (t2 - tc < DUPLICATE_COOLDOWN_SEC) := by
        simp only [DUPLICATE_COOLDOWN_SEC] at hge ⊢
        omega
      constructor <;> simp [handle_voice, hevict, hdl, hnlt]
  · constructor <;>
      simp [run_dup, dup_step, handle_voice, evict_old_last_processed,
        dlookup]

/-- Witness for C4 (amended): submit at 0, complete at 30, resubmit at 85
(55 s after completion): skipped, leaving one enqueued job and one skip
notice. -/
theorem c4_amended_duplicate_suppression_witness :
    run_dup [.submit 0 1 "a", .complete 30 1 "a", .submit 85 1 "a"] =
      ⟨[((1, "a"), 30)], [(1, "a")], [(1, "a")]⟩ :=
  (c4_amended_duplicate_suppression 0 30 85 1 "a" (by decide) (by decide)).1
    (by decide)

theorem dropWhile_pySpace_replicate_amp (n : Nat) :
    List.dropWhile isPySpace (List.replicate n '&') =
      List.replicate n '&' := by
  cases n with
  | zero => rfl
  | succ k => simp [List.replicate_succ, List.dropWhile, isPySpace]

theorem pyStrip_replicate_amp (n : Nat) :
    pyStrip (List.replicate n '&') = List.replicate n '&' := by
  unfold pyStrip pyRstrip
  rw [dropWhile_pySpace_replicate_amp, List.reverse_replicate,
    dropWhile_pySpace_replicate_amp, List.reverse_replicate]

theorem replaceChar_append (pat : Char) (rep : List Char) :
    ∀ s t : List Char,
      replaceChar pat rep (s ++ t) = replaceChar pat rep s ++
        replaceChar pat rep t := by
  intro s t
  induction s with
  | nil => simp [replaceChar]
  | cons c cs ih => simp [replaceChar, ih]

theorem escape_html_append (s t : List Char) :
    escape_html (s ++ t) = escape_html s ++ escape_html t := by
  simp [escape_html, replaceChar_append]

theorem escape_html_replicate_amp_length (n : Nat) :
    (escape_html (List.replicate n '&')).length = 5 * n := by
  induction n with
  | zero => rfl
  | succ k ih =>
    have hsucc : List.replicate (k + 1) '&' =
        ['&'] ++ List.replicate k '&' := by
      simp [List.replicate_succ]
    rw [hsucc, escape_html_append, List.length_append, ih]
    have h1 : (escape_html ['&']).length = 5 := by decide
    rw [h1]
    omega

/-- C9 (code bug): `_chunk_then_escape` does not terminate on every text.
On a text of 820 `&` characters with `max_escaped = 4085` (the value
`send_text_in_chunks` uses for copyable delivery under the 4096 limit),
`_split_text_chunks(text, raw_max)` returns the text unchanged (820 ≤
`raw_max` = 3985), its escape has length 4100 > 4085, and the function
recurses on *identical* arguments — an infinite recursion (Python raises
`RecursionError`). Formally: for every recursion fuel the fueled model
fails to return. -/
theorem c9_chunk_then_escape_diverges :
    ∀ fuel : Nat,
      chunk_then_escape fuel (List.replicate 820 '&') 4085 = none := by
  intro fuel
  have hne : ¬ (List.replicate 820 '&' = ([] : List Char) ∨
      pyStrip (List.replicate 820 '&') = []) := by
    rw [pyStrip_replicate_amp]
    intro h
    rcases h with h | h <;>
    · have := congrArg List.length h
      simp at this
  have hsplit : split_text_chunks (List.replicate 820 '&')
      (max 800 (4085 - 100)) = [List.replicate 820 '&'] := by
    unfold split_text_chunks
    rw [if_neg hne, if_pos, pyStrip_replicate_amp]
    rw [List.length_replicate]
    omega
  have hlen : ¬ ((escape_html (List.replicate 820 '&')).length ≤ 4085) := by
    rw [escape_html_replicate_amp_length]
    omega
  induction fuel with
  | zero => simp [chunk_then_escape]
  | succ f ih =>
    rw [chunk_then_escape, if_neg hne, hsplit, chunk_then_escape_go,
      if_neg hlen, ih]

end InnerVoice
